import Mathlib

/-
  Verification development for src/src/libuzfs_handle.c (the libcstor wire
  protocol endpoints: framed channel I/O, request/response envelopes, server
  buffer lifecycle and file-descriptor hand-off).

  Shallow embedding conventions:
  * machine integers are Nat, reduced modulo 2^64 exactly where the C code
    computes in uint64_t;
  * the socket is an oracle: for the two leaf primitives the oracle lists the
    results of the successive read(2)/write(2) system calls, and for the
    composite endpoint functions the oracle carries the value returned by each
    uzfs_read_packet / uzfs_write_packet call they perform;
  * malloc/free are an explicit allocator state handing out fresh nonzero
    addresses, with a log of allocations, a log of free() calls, and a flag
    that records any free of a nonzero address that is not currently live.
-/

/-- Modulus of the C uint64_t arithmetic used throughout libuzfs_handle.c. -/
def W64 : Nat := 2 ^ 64

/-- Linux errno value EPIPE, the channel-error result of uzfs_recv_response
(src lines 162/165/189/194). -/
def EPIPE : Int := 32

/-- ZFS_IOC_RECV operation code. Modelled from the spec: the streaming
operation codes come from the ZFS ioctl header, which is outside src/; only
their distinctness is used by the code under verification. -/
def ZFS_IOC_RECV : Nat := 0x5a1b

/-- ZFS_IOC_SEND operation code (see ZFS_IOC_RECV for provenance). -/
def ZFS_IOC_SEND : Nat := 0x5a1c

/-- ZFS_IOC_SEND_NEW operation code (see ZFS_IOC_RECV for provenance). -/
def ZFS_IOC_SEND_NEW : Nat := 0x5a40

/-- ZFS_IOC_RECV_NEW operation code (see ZFS_IOC_RECV for provenance). -/
def ZFS_IOC_RECV_NEW : Nat := 0x5a46

/-- C conversion of a signed ssize_t value to uint64_t, as performed by the
assignments `len = read(...)` / `len = write(...)` at src lines 127 and 146
(`len` is declared `uint64_t` at lines 120/139): the two's-complement value is
taken modulo 2^64. -/
def toU64 (r : Int) : Nat := (r % (W64 : Int)).toNat

/-- The do/while loop of uzfs_read_packet (src lines 126-131). `reads` is the
oracle of successive read(2) results (as C ssize_t values); `none` means the
oracle is exhausted, i.e. the blocking call never returns. Note that the C
comparison `(len = read(...)) < 0` at line 127 compares the *uint64_t* `len`
against 0, exactly as transcribed here. -/
def readLoop (size : Nat) : List Int → Nat → Option Int
  | [], _ => none
  | r :: rs, bufLen =>
    let len : Nat := toU64 r
    if len < 0 then some (-1)
    else
      let bufLen' : Nat := (bufLen + len) % W64
      if len ≠ 0 ∧ bufLen' < size then readLoop size rs bufLen'
      else some (if bufLen' = size then 1 else 0)

/-- uzfs_read_packet (src lines 117-134): read exactly `size` bytes, looping
on partial reads; returns 1 on full transfer, 0 on short transfer, and is
meant to return -1 on a read(2) error. -/
def uzfs_read_packet (reads : List Int) (size : Nat) : Option Int :=
  if size = 0 then some 1 else readLoop size reads 0

/-- The do/while loop of uzfs_write_packet (src lines 145-150); unlike
readLoop its continuation condition does not test `len`. -/
def writeLoop (size : Nat) : List Int → Nat → Option Int
  | [], _ => none
  | r :: rs, bufLen =>
    let len : Nat := toU64 r
    if len < 0 then some (-1)
    else
      let bufLen' : Nat := (bufLen + len) % W64
      if bufLen' < size then writeLoop size rs bufLen'
      else some (if bufLen' = size then 1 else 0)

/-- uzfs_write_packet (src lines 136-153). -/
def uzfs_write_packet (writes : List Int) (size : Nat) : Option Int :=
  if size = 0 then some 1 else writeLoop size writes 0

/-- The envelope header uzfs_ioctl_t. Modelled from the spec: the struct is
declared in libuzfs.h, outside src/; the fields below are the ones
libuzfs_handle.c uses (operation code, declared history length, total framed
size, and the response-direction return code). -/
structure UzfsIoctl where
  ioc_num : Nat
  his_len : Nat
  packet_size : Nat
  ioc_ret : Int
deriving DecidableEq

/-- The command descriptor zfs_cmd_t. Modelled from the spec: the struct is
declared in the ZFS headers, outside src/. The fields below are the ones
libuzfs_handle.c reads or writes; `zc_rest` stands for all remaining scalar
fields of the struct, which the code only ever copies wholesale (the struct
assignment `*zc = uzc` at src line 178). Pointer-valued fields are modelled
as Nat addresses, 0 playing the role of NULL. -/
structure ZfsCmd where
  zc_nvlist_src : Nat
  zc_nvlist_dst : Nat
  zc_nvlist_conf : Nat
  zc_history : Nat
  zc_nvlist_src_size : Nat
  zc_nvlist_dst_size : Nat
  zc_nvlist_conf_size : Nat
  zc_history_len : Nat
  zc_nvlist_dst_filled : Bool
  zc_guid : Nat
  zc_cookie : Nat
  zc_rest : Nat
deriving DecidableEq

/-- Allocator state for the server-side malloc/free calls. `next` is the next
fresh address (kept positive so fresh addresses are never NULL), `live` the
addresses currently allocated, `allocLog` every allocation ever made with its
requested size (most recent first), `frees` every free() call made in order,
and `doubleFree` records whether a nonzero address was ever freed while not
live. -/
structure Heap where
  next : Nat
  live : List Nat
  allocLog : List (Nat × Nat)
  frees : List Nat
  doubleFree : Bool
deriving DecidableEq

/-- malloc(size): hands out the next fresh address. -/
def Heap.malloc (h : Heap) (size : Nat) : Nat × Heap :=
  (h.next, { h with
    next := h.next + 1
    live := h.next :: h.live
    allocLog := (h.next, size) :: h.allocLog })

/-- Remove the first occurrence of an address from the live list. -/
def eraseFirst : List Nat → Nat → List Nat
  | [], _ => []
  | a :: l, p => if a = p then l else a :: eraseFirst l p

/-- free(p): no-op on NULL, releases a live allocation, and flags a double
(or wild) free otherwise. Every call is logged. -/
def Heap.free (h : Heap) (p : Nat) : Heap :=
  if p = 0 then { h with frees := h.frees ++ [p] }
  else if p ∈ h.live then
    { h with live := eraseFirst h.live p, frees := h.frees ++ [p] }
  else { h with doubleFree := true, frees := h.frees ++ [p] }

/-- uzfs_ioctl_done (src lines 36-42): frees the four context buffers, in the
order src, dst, conf, history. The cmd argument is unused by the C body but
kept for signature fidelity. -/
def uzfs_ioctl_done (_cmd : UzfsIoctl) (zc : ZfsCmd) (h : Heap) : Heap :=
  (((h.free zc.zc_nvlist_src).free zc.zc_nvlist_dst).free
      zc.zc_nvlist_conf).free zc.zc_history

/-- src line 69: `size_t his_size = (cmd->his_len ? cmd->his_len :
zc->zc_history_len);` -/
def his_size (cmd : UzfsIoctl) (zc : ZfsCmd) : Nat :=
  if cmd.his_len ≠ 0 then cmd.his_len else zc.zc_history_len

/-- One field block of uzfs_ioctl_init (e.g. src lines 51-56): if the declared
size is nonzero, malloc it (the Bool oracle decides whether malloc succeeds;
`none` is the `goto err` outcome) and return the new address, otherwise leave
the field's pointer NULL. -/
def allocField (h : Heap) (size : Nat) (ok : Bool) : Option (Nat × Heap) :=
  if size = 0 then some (0, h)
  else if ok then some (h.malloc size) else none

/-- Result of uzfs_ioctl_init: C return value, the updated descriptor, and
the allocator state. -/
structure InitResult where
  ret : Int
  zc : ZfsCmd
  heap : Heap
deriving DecidableEq

/-- uzfs_ioctl_init (src lines 44-81): NULL all four buffer pointers, then
allocate input, output, configuration and history buffers for the declared
nonzero sizes; on any malloc failure run uzfs_ioctl_done on what exists so
far and return -1. The four Bool arguments are the malloc success oracle in
program order. -/
def uzfs_ioctl_init (cmd : UzfsIoctl) (zcIn : ZfsCmd) (oS oD oC oH : Bool)
    (h : Heap) : InitResult :=
  let zc0 := { zcIn with zc_nvlist_src := 0, zc_nvlist_dst := 0,
                         zc_nvlist_conf := 0, zc_history := 0 }
  match allocField h zc0.zc_nvlist_src_size oS with
  | none => ⟨-1, zc0, uzfs_ioctl_done cmd zc0 h⟩
  | some (pS, h1) =>
    let zc1 := { zc0 with zc_nvlist_src := pS }
    match allocField h1 zc1.zc_nvlist_dst_size oD with
    | none => ⟨-1, zc1, uzfs_ioctl_done cmd zc1 h1⟩
    | some (pD, h2) =>
      let zc2 := { zc1 with zc_nvlist_dst := pD }
      match allocField h2 zc2.zc_nvlist_conf_size oC with
      | none => ⟨-1, zc2, uzfs_ioctl_done cmd zc2 h2⟩
      | some (pC, h3) =>
        let zc3 := { zc2 with zc_nvlist_conf := pC }
        match allocField h3 (his_size cmd zc3) oH with
        | none => ⟨-1, zc3, uzfs_ioctl_done cmd zc3 h3⟩
        | some (pH, h4) => ⟨0, { zc3 with zc_history := pH }, h4⟩

/-- The fd hand-off condition, appearing verbatim in uzfs_send_ioctl (src
lines 238-241), uzfs_recv_ioctl (lines 275-278) and uzfs_send_response
(lines 294-297): `(ioc_num == ZFS_IOC_SEND && !zc->zc_guid) || ioc_num ==
ZFS_IOC_RECV || ioc_num == ZFS_IOC_RECV_NEW || ioc_num == ZFS_IOC_SEND_NEW`. -/
def fd_transfer_gate (ioc : Nat) (guid : Nat) : Bool :=
  (ioc == ZFS_IOC_SEND && guid == 0) || ioc == ZFS_IOC_RECV ||
    ioc == ZFS_IOC_RECV_NEW || ioc == ZFS_IOC_SEND_NEW

/-- Oracle for uzfs_send_ioctl: the value returned by each of its five
uzfs_write_packet calls, in program order (header, descriptor, input buffer,
configuration buffer, history buffer). -/
structure SendOracle where
  wHeader : Int
  wDesc : Int
  wSrc : Int
  wConf : Int
  wHis : Int
deriving DecidableEq

/-- Result of uzfs_send_ioctl: C return value, the envelope header as
populated by the function, and whether do_sendfd was called. -/
structure SendResult where
  ret : Int
  cmd : UzfsIoctl
  sentFd : Bool
deriving DecidableEq

/-- uzfs_send_ioctl (src lines 199-246). `hdrSize`/`descSize` stand for
`sizeof (uzfs_ioctl_t)` / `sizeof (zfs_cmd_t)` (types declared outside src/);
`strlenHis` is the length of the NUL-terminated string at `zc->zc_history`
(the value of the external `strlen` call at line 207, only consulted when
that call is made); `fdOk` tells whether the external do_sendfd call (line
242) succeeds. The envelope starts zero-initialised (`= {0}`, line 202). -/
def uzfs_send_ioctl (hdrSize descSize : Nat) (request : Nat) (zc : ZfsCmd)
    (strlenHis : Nat) (o : SendOracle) (fdOk : Bool) : SendResult :=
  let hisLen : Nat :=
    if zc.zc_history_len = 0 ∧ zc.zc_history ≠ 0 then strlenHis else 0
  let cmd2 : UzfsIoctl := ⟨request, hisLen,
    (hdrSize + descSize + zc.zc_nvlist_src_size + zc.zc_nvlist_conf_size
      + hisLen) % W64, 0⟩
  if o.wHeader ≤ 0 then ⟨-1, cmd2, false⟩
  else if o.wDesc ≤ 0 then ⟨-1, cmd2, false⟩
  else if o.wSrc ≤ 0 then ⟨-1, cmd2, false⟩
  else if o.wConf ≤ 0 then ⟨-1, cmd2, false⟩
  else if o.wHis ≤ 0 then ⟨-1, cmd2, false⟩
  else if fd_transfer_gate cmd2.ioc_num zc.zc_guid then
    if fdOk then ⟨0, cmd2, true⟩ else ⟨-1, cmd2, true⟩
  else ⟨0, cmd2, false⟩

/-- Oracle for uzfs_recv_response: the value returned by each of its (up to
four) uzfs_read_packet calls, and the data delivered by the two fixed-size
reads (envelope header and descriptor image). -/
structure RecvRespOracle where
  rHeader : Int
  hdr : UzfsIoctl
  rDesc : Int
  desc : ZfsCmd
  rHis : Int
  rDst : Int
deriving DecidableEq

/-- Result of uzfs_recv_response: C return value, the caller's descriptor
after the call, and the (address, size) pair of every payload read performed
into a caller buffer (history first, then output). -/
structure RecvRespResult where
  ret : Int
  zc : ZfsCmd
  reads : List (Nat × Nat)
deriving DecidableEq

/-- uzfs_recv_response (src lines 155-197): read the envelope and the peer's
descriptor image, copy the image over the caller's descriptor while backing
up and restoring the four caller buffer pointers (lines 172-184), then read
the history payload (guarded by the restored pointer and the *wire* history
length, line 186) and the output payload (guarded by the wire output-filled
flag, line 191); any failed uzfs_read_packet yields EPIPE, otherwise the
peer's ioc_ret. -/
def uzfs_recv_response (zc : ZfsCmd) (o : RecvRespOracle) : RecvRespResult :=
  if o.rHeader ≤ 0 then ⟨EPIPE, zc, []⟩
  else if o.rDesc ≤ 0 then ⟨EPIPE, zc, []⟩
  else
    let zc1 := { o.desc with
      zc_nvlist_src := zc.zc_nvlist_src
      zc_nvlist_dst := zc.zc_nvlist_dst
      zc_nvlist_conf := zc.zc_nvlist_conf
      zc_history := zc.zc_history }
    let hisReads : List (Nat × Nat) :=
      if zc1.zc_history ≠ 0 ∧ zc1.zc_history_len ≠ 0 then
        [(zc1.zc_history, zc1.zc_history_len)] else []
    if zc1.zc_history ≠ 0 ∧ zc1.zc_history_len ≠ 0 ∧ o.rHis ≤ 0 then
      ⟨EPIPE, zc1, hisReads⟩
    else
      let dstReads : List (Nat × Nat) :=
        if o.desc.zc_nvlist_dst_filled then
          [(zc1.zc_nvlist_dst, zc1.zc_nvlist_dst_size)] else []
      if o.desc.zc_nvlist_dst_filled ∧ o.rDst ≤ 0 then
        ⟨EPIPE, zc1, hisReads ++ dstReads⟩
      else ⟨o.hdr.ioc_ret, zc1, hisReads ++ dstReads⟩

/-- Oracle for uzfs_recv_ioctl: the value returned by each of its five
uzfs_read_packet calls, the data delivered by the two fixed-size reads, the
malloc oracle for uzfs_ioctl_init, and the result of the external do_recvfd
call. -/
structure RecvIoctlOracle where
  rHeader : Int
  hdr : UzfsIoctl
  rDesc : Int
  desc : ZfsCmd
  oSrc : Bool
  oDst : Bool
  oConf : Bool
  oHis : Bool
  rSrc : Int
  rConf : Int
  rHis : Int
  fdRecv : Int
deriving DecidableEq

/-- Result of uzfs_recv_ioctl: C return value, the received descriptor, the
allocator state, whether do_recvfd was called, and the stored uzfs_recvfd. -/
structure RecvIoctlResult where
  ret : Int
  zc : ZfsCmd
  heap : Heap
  recvfdCalled : Bool
  uzfs_recvfd : Int
deriving DecidableEq

/-- uzfs_recv_ioctl (src lines 248-287): read envelope and descriptor,
allocate the context buffers via uzfs_ioctl_init, read the input,
configuration and history payloads (the history read is sized by the
envelope's his_len, line 271), then receive the fd when the hand-off gate
holds; every failure after a successful init goes through `goto err`, which
runs uzfs_ioctl_done. `zcIn` is the caller's descriptor storage before any
read lands in it. -/
def uzfs_recv_ioctl (zcIn : ZfsCmd) (o : RecvIoctlOracle) (h : Heap) :
    RecvIoctlResult :=
  if o.rHeader ≤ 0 then ⟨-1, zcIn, h, false, -1⟩
  else if o.rDesc ≤ 0 then ⟨-1, zcIn, h, false, -1⟩
  else
    let ini := uzfs_ioctl_init o.hdr o.desc o.oSrc o.oDst o.oConf o.oHis h
    if ini.ret < 0 then ⟨-1, ini.zc, ini.heap, false, -1⟩
    else if o.rSrc ≤ 0 then
      ⟨-1, ini.zc, uzfs_ioctl_done o.hdr ini.zc ini.heap, false, -1⟩
    else if o.rConf ≤ 0 then
      ⟨-1, ini.zc, uzfs_ioctl_done o.hdr ini.zc ini.heap, false, -1⟩
    else if o.rHis ≤ 0 then
      ⟨-1, ini.zc, uzfs_ioctl_done o.hdr ini.zc ini.heap, false, -1⟩
    else if fd_transfer_gate o.hdr.ioc_num ini.zc.zc_guid then
      if o.fdRecv < 0 then
        ⟨-1, ini.zc, uzfs_ioctl_done o.hdr ini.zc ini.heap, true, o.fdRecv⟩
      else ⟨0, ini.zc, ini.heap, true, o.fdRecv⟩
    else ⟨0, ini.zc, ini.heap, false, -1⟩

/-- Oracle for uzfs_send_response: the value returned by each of its (up to
four) uzfs_write_packet calls. -/
structure SendRespOracle where
  wHeader : Int
  wDesc : Int
  wHis : Int
  wDst : Int
deriving DecidableEq

/-- Result of uzfs_send_response: C return value, the envelope as updated
with the response packet_size, and the allocator state. -/
structure SendRespResult where
  ret : Int
  cmd : UzfsIoctl
  heap : Heap
deriving DecidableEq

/-- uzfs_send_response (src lines 289-330): (the close of the streamed fd at
line 298 touches no buffer and is not modelled), recompute packet_size
(lines 301-305), write envelope, descriptor, history and - when
output-filled - the output buffer; every exit path falls through the `out:`
label, which runs uzfs_ioctl_done on the context (line 328). -/
def uzfs_send_response (hdrSize descSize : Nat) (ucmd : UzfsIoctl)
    (zc : ZfsCmd) (o : SendRespOracle) (h : Heap) : SendRespResult :=
  let cmd1 := { ucmd with packet_size :=
      ((if zc.zc_nvlist_dst_filled then zc.zc_nvlist_dst_size else 0)
        + hdrSize + descSize + zc.zc_history_len) % W64 }
  if o.wHeader ≤ 0 then ⟨-1, cmd1, uzfs_ioctl_done cmd1 zc h⟩
  else if o.wDesc ≤ 0 then ⟨-1, cmd1, uzfs_ioctl_done cmd1 zc h⟩
  else if o.wHis ≤ 0 then ⟨-1, cmd1, uzfs_ioctl_done cmd1 zc h⟩
  else if zc.zc_nvlist_dst_filled ∧ o.wDst ≤ 0 then
    ⟨-1, cmd1, uzfs_ioctl_done cmd1 zc h⟩
  else ⟨0, cmd1, uzfs_ioctl_done cmd1 zc h⟩

/-- An all-fields-zero descriptor, used as a base for concrete inputs. -/
def zcZero : ZfsCmd := ⟨0, 0, 0, 0, 0, 0, 0, 0, false, 0, 0, 0⟩

/-- An empty allocator whose first fresh address is 1. -/
def heap0 : Heap := ⟨1, [], [], [], false⟩

/-- A write oracle on which every uzfs_write_packet call succeeds. -/
def okSend : SendOracle := ⟨1, 1, 1, 1, 1⟩

/-! ### Helper lemmas about the allocator -/

theorem eraseFirst_cons_self (l : List Nat) (p : Nat) :
    eraseFirst (p :: l) p = l := by
  simp [eraseFirst]

theorem eraseFirst_cons_ne (l : List Nat) (a p : Nat) (h : a ≠ p) :
    eraseFirst (a :: l) p = a :: eraseFirst l p := by
  simp [eraseFirst, h]

theorem mem_eraseFirst_of_ne {q p : Nat} :
    ∀ {l : List Nat}, q ∈ l → q ≠ p → q ∈ eraseFirst l p := by
  intro l
  induction l with
  | nil => intro hq _; cases hq
  | cons a t ih =>
    intro hq hne
    by_cases hap : a = p
    · subst hap
      rcases List.mem_cons.mp hq with h | h
      · exact absurd h hne
      · simpa [eraseFirst_cons_self] using h
    · rcases List.mem_cons.mp hq with h | h
      · simp [eraseFirst_cons_ne _ _ _ hap, h]
      · simp [eraseFirst_cons_ne _ _ _ hap, ih h hne]

theorem free_null (h : Heap) : h.free 0 = { h with frees := h.frees ++ [0] } := by
  simp [Heap.free]

theorem free_frees (h : Heap) (p : Nat) : (h.free p).frees = h.frees ++ [p] := by
  by_cases h0 : p = 0
  · simp [Heap.free, h0]
  · by_cases hm : p ∈ h.live <;> simp [Heap.free, h0, hm]

theorem free_doubleFree (h : Heap) (p : Nat) (hdf : h.doubleFree = false)
    (hp : p ≠ 0 → p ∈ h.live) : (h.free p).doubleFree = false := by
  by_cases h0 : p = 0
  · simp [Heap.free, h0, hdf]
  · simp [Heap.free, h0, hp h0, hdf]

theorem free_live_mem (h : Heap) (p q : Nat) (hq : q ∈ h.live) (hne : q ≠ p) :
    q ∈ (h.free p).live := by
  by_cases h0 : p = 0
  · simp [Heap.free, h0, hq]
  · by_cases hm : p ∈ h.live
    · simp only [Heap.free, h0, hm, if_false, if_true, ite_true, ite_false]
      simpa using mem_eraseFirst_of_ne hq hne
    · simp [Heap.free, h0, hm, hq]

theorem free_head (m p : Nat) (L : List Nat) (lg : List (Nat × Nat))
    (fr : List Nat) (df : Bool) (hp : p ≠ 0) :
    Heap.free ⟨m, p :: L, lg, fr, df⟩ p = ⟨m, L, lg, fr ++ [p], df⟩ := by
  simp [Heap.free, hp, eraseFirst_cons_self]

theorem free_depth1 (m p q : Nat) (L : List Nat) (lg : List (Nat × Nat))
    (fr : List Nat) (df : Bool) (hp : p ≠ 0) (hq : q ≠ p) :
    Heap.free ⟨m, q :: p :: L, lg, fr, df⟩ p =
      ⟨m, q :: L, lg, fr ++ [p], df⟩ := by
  simp [Heap.free, hp, hq, eraseFirst_cons_ne _ _ _ hq, eraseFirst_cons_self]

theorem free_depth2 (m p q r : Nat) (L : List Nat) (lg : List (Nat × Nat))
    (fr : List Nat) (df : Bool) (hp : p ≠ 0) (hq : q ≠ p) (hr : r ≠ p) :
    Heap.free ⟨m, q :: r :: p :: L, lg, fr, df⟩ p =
      ⟨m, q :: r :: L, lg, fr ++ [p], df⟩ := by
  simp [Heap.free, hp, hq, hr, eraseFirst_cons_ne, eraseFirst_cons_self]

theorem done_frees (cmd : UzfsIoctl) (zc : ZfsCmd) (h : Heap) :
    (uzfs_ioctl_done cmd zc h).frees = h.frees ++
      [zc.zc_nvlist_src, zc.zc_nvlist_dst, zc.zc_nvlist_conf, zc.zc_history] := by
  simp [uzfs_ioctl_done, free_frees]

theorem plus_one_ne_zero (n : Nat) : n + 1 ≠ 0 := by omega

theorem nne1 (n : Nat) : n + 1 ≠ n := by omega

theorem nne2 (n : Nat) : n + 1 + 1 ≠ n := by omega

theorem nne21 (n : Nat) : n + 1 + 1 ≠ n + 1 := by omega

/-! ### Properties of the channel primitives (C1) -/

/-- C1: the claim that uzfs_read_packet / uzfs_write_packet report short
transfers and transport errors as distinguishable return values fails on the
code: `len` is uint64_t, so the error branch `if (len < 0) return (-1)` is
dead, and an underlying call failing with -1 yields return value 0 - the
same value as a clean peer EOF (short transfer). The last two conjuncts
record the intended success behaviour for contrast. -/
theorem read_write_error_short_collapse :
    uzfs_read_packet [(-1 : Int)] 1 = some 0 ∧
    uzfs_read_packet [(0 : Int)] 1 = some 0 ∧
    uzfs_write_packet [(-1 : Int)] 1 = some 0 ∧
    uzfs_read_packet [(1 : Int)] 1 = some 1 ∧
    uzfs_read_packet [] 0 = some 1 := by
  decide

/-! ### The fd hand-off gate (C2) -/

theorem fd_transfer_gate_eq_true (ioc guid : Nat) :
    fd_transfer_gate ioc guid = true ↔
      ((ioc = ZFS_IOC_SEND ∧ guid = 0) ∨ ioc = ZFS_IOC_RECV ∨
        ioc = ZFS_IOC_RECV_NEW ∨ ioc = ZFS_IOC_SEND_NEW) := by
  simp [fd_transfer_gate, Bool.or_eq_true, Bool.and_eq_true, or_assoc]

theorem allocField_true_ne_none (h : Heap) (s : Nat) :
    allocField h s true ≠ none := by
  unfold allocField; split <;> simp

theorem ioctl_init_zc_guid (cmd : UzfsIoctl) (zc : ZfsCmd) (oS oD oC oH : Bool)
    (h : Heap) :
    (uzfs_ioctl_init cmd zc oS oD oC oH h).zc.zc_guid = zc.zc_guid := by
  simp only [uzfs_ioctl_init]
  repeat' split
  all_goals rfl

theorem ioctl_init_ok_ret (cmd : UzfsIoctl) (zc : ZfsCmd) (h : Heap) :
    (uzfs_ioctl_init cmd zc true true true true h).ret = 0 := by
  simp only [uzfs_ioctl_init]
  repeat' split
  all_goals first
    | rfl
    | exact absurd (by assumption) (allocField_true_ne_none _ _)

theorem send_ioctl_sentFd (hdrSize descSize request strlenHis : Nat)
    (zc : ZfsCmd) (o : SendOracle) (fdOk : Bool)
    (hw1 : 0 < o.wHeader) (hw2 : 0 < o.wDesc) (hw3 : 0 < o.wSrc)
    (hw4 : 0 < o.wConf) (hw5 : 0 < o.wHis) :
    (uzfs_send_ioctl hdrSize descSize request zc strlenHis o fdOk).sentFd =
      fd_transfer_gate request zc.zc_guid := by
  have n1 : ¬ o.wHeader ≤ 0 := by omega
  have n2 : ¬ o.wDesc ≤ 0 := by omega
  have n3 : ¬ o.wSrc ≤ 0 := by omega
  have n4 : ¬ o.wConf ≤ 0 := by omega
  have n5 : ¬ o.wHis ≤ 0 := by omega
  simp only [uzfs_send_ioctl, n1, n2, n3, n4, n5, if_false, ite_false]
  by_cases hg : fd_transfer_gate request zc.zc_guid = true
  · simp only [hg]
    cases fdOk <;> simp
  · simp only [Bool.not_eq_true] at hg
    simp [hg]

theorem send_ioctl_sentFd_gate (hdrSize descSize request strlenHis : Nat)
    (zc : ZfsCmd) (o : SendOracle) (fdOk : Bool) :
    (uzfs_send_ioctl hdrSize descSize request zc strlenHis o fdOk).sentFd = true →
      fd_transfer_gate request zc.zc_guid = true := by
  simp only [uzfs_send_ioctl]
  repeat' split
  all_goals simp_all

theorem recv_ioctl_recvfd (zcIn : ZfsCmd) (ro : RecvIoctlOracle) (h : Heap)
    (hr1 : 0 < ro.rHeader) (hr2 : 0 < ro.rDesc)
    (ha1 : ro.oSrc = true) (ha2 : ro.oDst = true) (ha3 : ro.oConf = true)
    (ha4 : ro.oHis = true)
    (hr3 : 0 < ro.rSrc) (hr4 : 0 < ro.rConf) (hr5 : 0 < ro.rHis) :
    (uzfs_recv_ioctl zcIn ro h).recvfdCalled =
      fd_transfer_gate ro.hdr.ioc_num ro.desc.zc_guid := by
  have n1 : ¬ ro.rHeader ≤ 0 := by omega
  have n2 : ¬ ro.rDesc ≤ 0 := by omega
  have n3 : ¬ ro.rSrc ≤ 0 := by omega
  have n4 : ¬ ro.rConf ≤ 0 := by omega
  have n5 : ¬ ro.rHis ≤ 0 := by omega
  have hret : (uzfs_ioctl_init ro.hdr ro.desc ro.oSrc ro.oDst ro.oConf ro.oHis h).ret = 0 := by
    rw [ha1, ha2, ha3, ha4]; exact ioctl_init_ok_ret _ _ _
  have hnret : ¬ (uzfs_ioctl_init ro.hdr ro.desc ro.oSrc ro.oDst ro.oConf ro.oHis h).ret < 0 := by
    rw [hret]; omega
  simp only [uzfs_recv_ioctl, n1, n2, n3, n4, n5, hnret, if_false, ite_false,
    ioctl_init_zc_guid]
  by_cases hg : fd_transfer_gate ro.hdr.ioc_num ro.desc.zc_guid = true
  · simp only [hg]
    by_cases hfd : ro.fdRecv < 0 <;> simp [hfd]
  · simp only [Bool.not_eq_true] at hg
    simp [hg]

theorem recv_ioctl_recvfd_gate (zcIn : ZfsCmd) (ro : RecvIoctlOracle) (h : Heap) :
    (uzfs_recv_ioctl zcIn ro h).recvfdCalled = true →
      fd_transfer_gate ro.hdr.ioc_num ro.desc.zc_guid = true := by
  simp only [uzfs_recv_ioctl]
  repeat' split
  all_goals simp_all [ioctl_init_zc_guid]

/-- A receive-side oracle on which every read and allocation succeeds and for
which the hand-off gate holds (operation ZFS_IOC_RECV). -/
def roOk : RecvIoctlOracle :=
  ⟨1, ⟨ZFS_IOC_RECV, 0, 0, 0⟩, 1, zcZero, true, true, true, true, 1, 1, 1, 3⟩

/-- C2 counterexample: for ZFS_IOC_SEND with a *non-zero* correlation field
(zc_guid = 1) the claim predicts a descriptor-transfer call, but the sender
makes none even though every packet write succeeded (the code gates
ZFS_IOC_SEND on `!zc->zc_guid`, i.e. on zc_guid being zero). -/
theorem fd_transfer_nonzero_guid_cex :
    (uzfs_send_ioctl 1 1 ZFS_IOC_SEND { zcZero with zc_guid := 1 } 0
        okSend true).sentFd = false ∧
    (uzfs_send_ioctl 1 1 ZFS_IOC_SEND zcZero 0 okSend true).sentFd = true := by
  decide

/-- C2 (amended): the sender makes the do_sendfd call and the receiver makes
the do_recvfd call (when the transfer up to that point succeeded) exactly
when the operation code is ZFS_IOC_RECV, ZFS_IOC_RECV_NEW, ZFS_IOC_SEND_NEW,
or ZFS_IOC_SEND with the correlation field zc_guid equal to *zero*
(estimation-only ZFS_IOC_SEND calls, marked by non-zero zc_guid, carry no
descriptor); for every other operation code, and whatever the outcome of the
packet writes or reads, no descriptor-transfer call is ever made. -/
theorem fd_transfer_gate_iff (hdrSize descSize request strlenHis : Nat)
    (zc : ZfsCmd) (o : SendOracle) (fdOk : Bool) (o2 : SendOracle) (fdOk2 : Bool)
    (zcIn : ZfsCmd) (ro : RecvIoctlOracle) (h : Heap)
    (ro2 : RecvIoctlOracle) (h2 : Heap)
    (hw1 : 0 < o.wHeader) (hw2 : 0 < o.wDesc) (hw3 : 0 < o.wSrc)
    (hw4 : 0 < o.wConf) (hw5 : 0 < o.wHis)
    (hr1 : 0 < ro.rHeader) (hr2 : 0 < ro.rDesc)
    (ha1 : ro.oSrc = true) (ha2 : ro.oDst = true) (ha3 : ro.oConf = true)
    (ha4 : ro.oHis = true)
    (hr3 : 0 < ro.rSrc) (hr4 : 0 < ro.rConf) (hr5 : 0 < ro.rHis) :
    ((uzfs_send_ioctl hdrSize descSize request zc strlenHis o fdOk).sentFd = true ↔
      ((request = ZFS_IOC_SEND ∧ zc.zc_guid = 0) ∨ request = ZFS_IOC_RECV ∨
        request = ZFS_IOC_RECV_NEW ∨ request = ZFS_IOC_SEND_NEW)) ∧
    ((uzfs_send_ioctl hdrSize descSize request zc strlenHis o2 fdOk2).sentFd = true →
      ((request = ZFS_IOC_SEND ∧ zc.zc_guid = 0) ∨ request = ZFS_IOC_RECV ∨
        request = ZFS_IOC_RECV_NEW ∨ request = ZFS_IOC_SEND_NEW)) ∧
    ((uzfs_recv_ioctl zcIn ro h).recvfdCalled = true ↔
      ((ro.hdr.ioc_num = ZFS_IOC_SEND ∧ ro.desc.zc_guid = 0) ∨
        ro.hdr.ioc_num = ZFS_IOC_RECV ∨ ro.hdr.ioc_num = ZFS_IOC_RECV_NEW ∨
        ro.hdr.ioc_num = ZFS_IOC_SEND_NEW)) ∧
    ((uzfs_recv_ioctl zcIn ro2 h2).recvfdCalled = true →
      ((ro2.hdr.ioc_num = ZFS_IOC_SEND ∧ ro2.desc.zc_guid = 0) ∨
        ro2.hdr.ioc_num = ZFS_IOC_RECV ∨ ro2.hdr.ioc_num = ZFS_IOC_RECV_NEW ∨
        ro2.hdr.ioc_num = ZFS_IOC_SEND_NEW)) := by
  refine ⟨?_, ?_, ?_, ?_⟩
  · rw [send_ioctl_sentFd hdrSize descSize request strlenHis zc o fdOk
      hw1 hw2 hw3 hw4 hw5]
    exact fd_transfer_gate_eq_true request zc.zc_guid
  · intro hs
    exact (fd_transfer_gate_eq_true request zc.zc_guid).mp
      (send_ioctl_sentFd_gate hdrSize descSize request strlenHis zc o2 fdOk2 hs)
  · rw [recv_ioctl_recvfd zcIn ro h hr1 hr2 ha1 ha2 ha3 ha4 hr3 hr4 hr5]
    exact fd_transfer_gate_eq_true ro.hdr.ioc_num ro.desc.zc_guid
  · intro hs
    exact (fd_transfer_gate_eq_true ro2.hdr.ioc_num ro2.desc.zc_guid).mp
      (recv_ioctl_recvfd_gate zcIn ro2 h2 hs)

/-- Witness for fd_transfer_gate_iff at ZFS_IOC_RECV on all-success oracles:
both endpoints make the descriptor-transfer call. -/
theorem fd_transfer_gate_iff_witness :
    (uzfs_send_ioctl 1 1 ZFS_IOC_RECV zcZero 0 okSend true).sentFd = true ∧
    (uzfs_recv_ioctl zcZero roOk heap0).recvfdCalled = true := by
  have h := fd_transfer_gate_iff 1 1 ZFS_IOC_RECV 0 zcZero okSend true okSend true
    zcZero roOk heap0 roOk heap0 (by decide) (by decide) (by decide) (by decide)
    (by decide) (by decide) (by decide) (by decide) (by decide) (by decide)
    (by decide) (by decide) (by decide) (by decide)
  exact ⟨h.1.mpr (Or.inr (Or.inl rfl)), h.2.2.1.mpr (Or.inr (Or.inl rfl))⟩

/-! ### uzfs_recv_response (C3, C9, C10) -/

/-- A peer descriptor image carrying sentinel buffer locations (11-14) that
differ from every client pointer, with every scalar field nonzero. -/
def descPoison : ZfsCmd := ⟨11, 12, 13, 14, 5, 6, 7, 8, true, 9, 10, 15⟩

/-- A client descriptor whose four buffer pointers are 100/200/300/400. -/
def zcClient : ZfsCmd := ⟨100, 200, 300, 400, 1, 2, 3, 4, false, 42, 7, 77⟩

/-- A response oracle on which every read succeeds, delivering the poisoned
descriptor image and a peer return code of 5. -/
def respOracleOk : RecvRespOracle := ⟨1, ⟨0, 0, 0, 5⟩, 1, descPoison, 1, 1⟩

/-- C3: once the envelope and the peer's descriptor image have been received,
the caller's descriptor keeps the caller's four buffer locations
(zc_nvlist_src, zc_nvlist_dst, zc_nvlist_conf, zc_history) unchanged, while
every other scalar field of the descriptor - including zc_nvlist_dst_filled -
equals the value from the peer's wire image. -/
theorem recv_response_preserves_refs (zc : ZfsCmd) (o : RecvRespOracle)
    (hh : 0 < o.rHeader) (hd : 0 < o.rDesc) :
    (uzfs_recv_response zc o).zc.zc_nvlist_src = zc.zc_nvlist_src ∧
    (uzfs_recv_response zc o).zc.zc_nvlist_dst = zc.zc_nvlist_dst ∧
    (uzfs_recv_response zc o).zc.zc_nvlist_conf = zc.zc_nvlist_conf ∧
    (uzfs_recv_response zc o).zc.zc_history = zc.zc_history ∧
    (uzfs_recv_response zc o).zc.zc_nvlist_src_size = o.desc.zc_nvlist_src_size ∧
    (uzfs_recv_response zc o).zc.zc_nvlist_dst_size = o.desc.zc_nvlist_dst_size ∧
    (uzfs_recv_response zc o).zc.zc_nvlist_conf_size = o.desc.zc_nvlist_conf_size ∧
    (uzfs_recv_response zc o).zc.zc_history_len = o.desc.zc_history_len ∧
    (uzfs_recv_response zc o).zc.zc_nvlist_dst_filled = o.desc.zc_nvlist_dst_filled ∧
    (uzfs_recv_response zc o).zc.zc_guid = o.desc.zc_guid ∧
    (uzfs_recv_response zc o).zc.zc_cookie = o.desc.zc_cookie ∧
    (uzfs_recv_response zc o).zc.zc_rest = o.desc.zc_rest := by
  have n1 : ¬ o.rHeader ≤ 0 := by omega
  have n2 : ¬ o.rDesc ≤ 0 := by omega
  simp only [uzfs_recv_response, n1, n2, if_false, ite_false]
  repeat' split
  all_goals simp

/-- Witness for recv_response_preserves_refs: on a concrete exchange with a
poisoned image the client keeps its own output pointer and adopts the wire
output-filled flag. -/
theorem recv_response_preserves_refs_witness :
    (uzfs_recv_response zcClient respOracleOk).zc.zc_nvlist_dst =
      zcClient.zc_nvlist_dst ∧
    (uzfs_recv_response zcClient respOracleOk).zc.zc_nvlist_dst_filled =
      descPoison.zc_nvlist_dst_filled := by
  have h := recv_response_preserves_refs zcClient respOracleOk
    (by decide) (by decide)
  exact ⟨h.2.1, h.2.2.2.2.2.2.2.2.1⟩

/-- C9: uzfs_recv_response returns the peer's ioc_ret when every read it
performs transfers in full, and returns EPIPE - whatever ioc_ret the peer
sent - when the header read, the descriptor read, a performed history read,
or a performed output read fails or is short. -/
theorem recv_response_ret_classify (zc : ZfsCmd) (o : RecvRespOracle) :
    ((0 < o.rHeader → 0 < o.rDesc →
      (zc.zc_history ≠ 0 → o.desc.zc_history_len ≠ 0 → 0 < o.rHis) →
      (o.desc.zc_nvlist_dst_filled = true → 0 < o.rDst) →
      (uzfs_recv_response zc o).ret = o.hdr.ioc_ret)) ∧
    (o.rHeader ≤ 0 → (uzfs_recv_response zc o).ret = EPIPE) ∧
    (o.rDesc ≤ 0 → (uzfs_recv_response zc o).ret = EPIPE) ∧
    (zc.zc_history ≠ 0 → o.desc.zc_history_len ≠ 0 → o.rHis ≤ 0 →
      (uzfs_recv_response zc o).ret = EPIPE) ∧
    (o.desc.zc_nvlist_dst_filled = true → o.desc.zc_nvlist_dst_size ≠ 0 →
      o.rDst ≤ 0 → (uzfs_recv_response zc o).ret = EPIPE) := by
  refine ⟨?_, ?_, ?_, ?_, ?_⟩
  · intro h1 h2 h3 h4
    have n1 : ¬ o.rHeader ≤ 0 := by omega
    have n2 : ¬ o.rDesc ≤ 0 := by omega
    by_cases hhp : zc.zc_history ≠ 0 ∧ o.desc.zc_history_len ≠ 0
    · have n3 : ¬ o.rHis ≤ 0 := by have := h3 hhp.1 hhp.2; omega
      by_cases hfl : o.desc.zc_nvlist_dst_filled = true
      · have n4 : ¬ o.rDst ≤ 0 := by have := h4 hfl; omega
        simp [uzfs_recv_response, n1, n2, n3, n4, hhp.1, hhp.2, hfl]
      · simp [uzfs_recv_response, n1, n2, n3, hhp.1, hhp.2, hfl]
    · by_cases hfl : o.desc.zc_nvlist_dst_filled = true
      · have n4 : ¬ o.rDst ≤ 0 := by have := h4 hfl; omega
        simp only [not_and_or, not_not] at hhp
        rcases hhp with hz | hz <;>
          simp [uzfs_recv_response, n1, n2, n4, hz, hfl]
      · simp only [not_and_or, not_not] at hhp
        rcases hhp with hz | hz <;>
          simp [uzfs_recv_response, n1, n2, hz, hfl]
  · intro h1
    simp [uzfs_recv_response, h1]
  · intro h1
    by_cases h0 : o.rHeader ≤ 0 <;>
      simp [uzfs_recv_response, h0, h1]
  · intro ha hb h1
    by_cases c1 : o.rHeader ≤ 0
    · simp [uzfs_recv_response, c1]
    · by_cases c2 : o.rDesc ≤ 0
      · simp [uzfs_recv_response, c1, c2]
      · simp [uzfs_recv_response, c1, c2, ha, hb, h1]
  · intro ha hb h1
    by_cases c1 : o.rHeader ≤ 0
    · simp [uzfs_recv_response, c1]
    · by_cases c2 : o.rDesc ≤ 0
      · simp [uzfs_recv_response, c1, c2]
      · by_cases c3 : zc.zc_history ≠ 0 ∧ o.desc.zc_history_len ≠ 0 ∧ o.rHis ≤ 0
        · simp [uzfs_recv_response, c1, c2, c3]
        · simp [uzfs_recv_response, c1, c2, c3, ha, h1]

/-- Witness for recv_response_ret_classify: the all-success exchange returns
the peer's return code 5, and breaking the descriptor read returns EPIPE. -/
theorem recv_response_ret_classify_witness :
    (uzfs_recv_response zcClient respOracleOk).ret = respOracleOk.hdr.ioc_ret ∧
    (uzfs_recv_response zcClient { respOracleOk with rDesc := 0 }).ret = EPIPE := by
  refine ⟨(recv_response_ret_classify zcClient respOracleOk).1 (by decide)
    (by decide) (fun _ _ => by decide) (fun _ => by decide), ?_⟩
  exact (recv_response_ret_classify zcClient
    { respOracleOk with rDesc := 0 }).2.2.1 (by decide)

/-- C10: every payload read uzfs_recv_response performs lands at a pointer
the caller owns but with a byte count taken from the peer's wire descriptor
image: the history read uses the wire zc_history_len and the output read
uses the wire zc_nvlist_dst_size, the caller's pre-call length/capacity
fields having been overwritten by the image before the reads. -/
theorem recv_response_reads_peer_sized (zc : ZfsCmd) (o : RecvRespOracle)
    (hh : 0 < o.rHeader) (hd : 0 < o.rDesc) :
    (∀ pr ∈ (uzfs_recv_response zc o).reads,
      pr = (zc.zc_history, o.desc.zc_history_len) ∨
      pr = (zc.zc_nvlist_dst, o.desc.zc_nvlist_dst_size)) ∧
    (zc.zc_history ≠ 0 → o.desc.zc_history_len ≠ 0 →
      (zc.zc_history, o.desc.zc_history_len) ∈ (uzfs_recv_response zc o).reads) ∧
    (o.desc.zc_nvlist_dst_filled = true →
      (zc.zc_history ≠ 0 → o.desc.zc_history_len ≠ 0 → 0 < o.rHis) →
      (zc.zc_nvlist_dst, o.desc.zc_nvlist_dst_size) ∈
        (uzfs_recv_response zc o).reads) := by
  have n1 : ¬ o.rHeader ≤ 0 := by omega
  have n2 : ¬ o.rDesc ≤ 0 := by omega
  refine ⟨?_, ?_, ?_⟩
  · intro pr hpr
    by_cases hz1 : zc.zc_history = 0 <;>
      by_cases hz2 : o.desc.zc_history_len = 0 <;>
      by_cases c3 : o.rHis ≤ 0 <;>
      by_cases hfl : o.desc.zc_nvlist_dst_filled = true <;>
      by_cases c4 : o.rDst ≤ 0 <;>
      simp [uzfs_recv_response, n1, n2, hz1, hz2, c3, hfl, c4] at hpr <;>
      first
        | (rcases hpr with hpr | hpr <;> simp [hpr])
        | simp [hpr]
  · intro ha hb
    by_cases c3 : o.rHis ≤ 0 <;>
      by_cases hfl : o.desc.zc_nvlist_dst_filled = true <;>
      by_cases c4 : o.rDst ≤ 0 <;>
      simp [uzfs_recv_response, n1, n2, ha, hb, c3, hfl, c4]
  · intro hfl h3
    by_cases hz1 : zc.zc_history = 0
    · by_cases c4 : o.rDst ≤ 0 <;>
        simp [uzfs_recv_response, n1, n2, hz1, hfl, c4]
    · by_cases hz2 : o.desc.zc_history_len = 0
      · by_cases c4 : o.rDst ≤ 0 <;>
          simp [uzfs_recv_response, n1, n2, hz1, hz2, hfl, c4]
      · have n3 : ¬ o.rHis ≤ 0 := by have := h3 hz1 hz2; omega
        by_cases c4 : o.rDst ≤ 0 <;>
          simp [uzfs_recv_response, n1, n2, hz1, hz2, n3, hfl, c4]

/-- Witness for recv_response_reads_peer_sized: in the concrete exchange the
history read targets the client pointer 400 with the peer-chosen length 8. -/
theorem recv_response_reads_peer_sized_witness :
    (zcClient.zc_history, descPoison.zc_history_len) ∈
      (uzfs_recv_response zcClient respOracleOk).reads := by
  exact (recv_response_reads_peer_sized zcClient respOracleOk (by decide)
    (by decide)).2.1 (by decide) (by decide)

/-! ### uzfs_send_ioctl header fields (C7, C8) -/

theorem send_ioctl_cmd_eq (hdrSize descSize request strlenHis : Nat)
    (zc : ZfsCmd) (o : SendOracle) (fdOk : Bool) :
    (uzfs_send_ioctl hdrSize descSize request zc strlenHis o fdOk).cmd =
      ⟨request,
        if zc.zc_history_len = 0 ∧ zc.zc_history ≠ 0 then strlenHis else 0,
        (hdrSize + descSize + zc.zc_nvlist_src_size + zc.zc_nvlist_conf_size
          + (if zc.zc_history_len = 0 ∧ zc.zc_history ≠ 0 then strlenHis
             else 0)) % W64, 0⟩ := by
  simp only [uzfs_send_ioctl]
  repeat' split
  all_goals rfl

/-- C7: uzfs_send_ioctl sends the envelope his_len equal to the strlen of the
history string exactly when the descriptor declares zc_history_len zero while
carrying a non-null history reference; when zc_history_len is nonzero the
envelope length is not recomputed from the string (it stays at its
zero-initialised value, independent of the string length). -/
theorem send_ioctl_his_len_compat (hdrSize descSize request strlenHis : Nat)
    (zc : ZfsCmd) (o : SendOracle) (fdOk : Bool) :
    (zc.zc_history_len = 0 → zc.zc_history ≠ 0 →
      (uzfs_send_ioctl hdrSize descSize request zc strlenHis o fdOk).cmd.his_len
        = strlenHis) ∧
    (zc.zc_history_len ≠ 0 →
      (uzfs_send_ioctl hdrSize descSize request zc strlenHis o fdOk).cmd.his_len
        = 0) := by
  rw [send_ioctl_cmd_eq]
  constructor
  · intro h1 h2
    simp [h1, h2]
  · intro h1
    simp [h1]

/-- Witness for send_ioctl_his_len_compat: a request declaring zero history
length but carrying a 7-character NUL-terminated history string goes out with
envelope his_len 7; declaring length 4 keeps his_len at 0. -/
theorem send_ioctl_his_len_compat_witness :
    (uzfs_send_ioctl 1 1 0 { zcZero with zc_history := 400 } 7
        okSend true).cmd.his_len = 7 ∧
    (uzfs_send_ioctl 1 1 0 { zcZero with zc_history := 400, zc_history_len := 4 }
        7 okSend true).cmd.his_len = 0 := by
  constructor
  · exact (send_ioctl_his_len_compat 1 1 0 7 { zcZero with zc_history := 400 }
      okSend true).1 (by decide) (by decide)
  · exact (send_ioctl_his_len_compat 1 1 0 7
      { zcZero with zc_history := 400, zc_history_len := 4 } okSend true).2
      (by decide)

/-- C8: the packet_size field of every request envelope equals (in uint64
arithmetic) header size + descriptor size + declared input size + declared
configuration size + the computed envelope history length, and the declared
output size zc_nvlist_dst_size contributes nothing: changing it to any value
leaves packet_size unchanged. -/
theorem send_ioctl_packet_size (hdrSize descSize request strlenHis d : Nat)
    (zc : ZfsCmd) (o : SendOracle) (fdOk : Bool) :
    (uzfs_send_ioctl hdrSize descSize request zc strlenHis o fdOk).cmd.packet_size
      = (hdrSize + descSize + zc.zc_nvlist_src_size + zc.zc_nvlist_conf_size
        + (uzfs_send_ioctl hdrSize descSize request zc strlenHis o
            fdOk).cmd.his_len) % W64 ∧
    (uzfs_send_ioctl hdrSize descSize request { zc with zc_nvlist_dst_size := d }
        strlenHis o fdOk).cmd.packet_size
      = (uzfs_send_ioctl hdrSize descSize request zc strlenHis o
          fdOk).cmd.packet_size := by
  rw [send_ioctl_cmd_eq, send_ioctl_cmd_eq]
  constructor
  · rfl
  · rfl

/-! ### uzfs_send_response buffer release (C6) -/

theorem send_response_heap_eq (hdrSize descSize : Nat) (ucmd : UzfsIoctl)
    (zc : ZfsCmd) (o : SendRespOracle) (h : Heap) :
    (uzfs_send_response hdrSize descSize ucmd zc o h).heap =
      uzfs_ioctl_done ucmd zc h := by
  simp only [uzfs_send_response]
  repeat' split
  all_goals rfl

theorem done_doubleFree (cmd : UzfsIoctl) (zc : ZfsCmd) (h : Heap)
    (hdf : h.doubleFree = false)
    (mS : zc.zc_nvlist_src ≠ 0 → zc.zc_nvlist_src ∈ h.live)
    (mD : zc.zc_nvlist_dst ≠ 0 → zc.zc_nvlist_dst ∈ h.live)
    (mC : zc.zc_nvlist_conf ≠ 0 → zc.zc_nvlist_conf ∈ h.live)
    (mH : zc.zc_history ≠ 0 → zc.zc_history ∈ h.live)
    (dDS : zc.zc_nvlist_dst ≠ 0 → zc.zc_nvlist_dst ≠ zc.zc_nvlist_src)
    (dCS : zc.zc_nvlist_conf ≠ 0 → zc.zc_nvlist_conf ≠ zc.zc_nvlist_src)
    (dCD : zc.zc_nvlist_conf ≠ 0 → zc.zc_nvlist_conf ≠ zc.zc_nvlist_dst)
    (dHS : zc.zc_history ≠ 0 → zc.zc_history ≠ zc.zc_nvlist_src)
    (dHD : zc.zc_history ≠ 0 → zc.zc_history ≠ zc.zc_nvlist_dst)
    (dHC : zc.zc_history ≠ 0 → zc.zc_history ≠ zc.zc_nvlist_conf) :
    (uzfs_ioctl_done cmd zc h).doubleFree = false := by
  unfold uzfs_ioctl_done
  apply free_doubleFree
  · apply free_doubleFree
    · apply free_doubleFree
      · exact free_doubleFree _ _ hdf mS
      · intro hD0
        exact free_live_mem _ _ _ (mD hD0) (dDS hD0)
    · intro hC0
      exact free_live_mem _ _ _
        (free_live_mem _ _ _ (mC hC0) (dCS hC0)) (dCD hC0)
  · intro hH0
    exact free_live_mem _ _ _ (free_live_mem _ _ _
      (free_live_mem _ _ _ (mH hH0) (dHS hH0)) (dHD hH0)) (dHC hH0)

/-- C6: uzfs_send_response ends every path - success or any failed write -
through uzfs_ioctl_done, issuing exactly one free() for each of the four
context buffers (input, output, configuration, history), in that order; when
those buffers are distinct live allocations no double free occurs, and the
resulting allocator state does not depend on the write outcomes at all. -/
theorem send_response_frees_once (hdrSize descSize : Nat) (ucmd : UzfsIoctl)
    (zc : ZfsCmd) (o : SendRespOracle) (h : Heap)
    (hdf : h.doubleFree = false)
    (mS : zc.zc_nvlist_src ≠ 0 → zc.zc_nvlist_src ∈ h.live)
    (mD : zc.zc_nvlist_dst ≠ 0 → zc.zc_nvlist_dst ∈ h.live)
    (mC : zc.zc_nvlist_conf ≠ 0 → zc.zc_nvlist_conf ∈ h.live)
    (mH : zc.zc_history ≠ 0 → zc.zc_history ∈ h.live)
    (dDS : zc.zc_nvlist_dst ≠ 0 → zc.zc_nvlist_dst ≠ zc.zc_nvlist_src)
    (dCS : zc.zc_nvlist_conf ≠ 0 → zc.zc_nvlist_conf ≠ zc.zc_nvlist_src)
    (dCD : zc.zc_nvlist_conf ≠ 0 → zc.zc_nvlist_conf ≠ zc.zc_nvlist_dst)
    (dHS : zc.zc_history ≠ 0 → zc.zc_history ≠ zc.zc_nvlist_src)
    (dHD : zc.zc_history ≠ 0 → zc.zc_history ≠ zc.zc_nvlist_dst)
    (dHC : zc.zc_history ≠ 0 → zc.zc_history ≠ zc.zc_nvlist_conf) :
    (uzfs_send_response hdrSize descSize ucmd zc o h).heap.frees =
      h.frees ++ [zc.zc_nvlist_src, zc.zc_nvlist_dst, zc.zc_nvlist_conf,
        zc.zc_history] ∧
    (uzfs_send_response hdrSize descSize ucmd zc o h).heap.doubleFree = false ∧
    ∀ o2 : SendRespOracle,
      (uzfs_send_response hdrSize descSize ucmd zc o2 h).heap =
        (uzfs_send_response hdrSize descSize ucmd zc o h).heap := by
  refine ⟨?_, ?_, ?_⟩
  · rw [send_response_heap_eq, done_frees]
  · rw [send_response_heap_eq]
    exact done_doubleFree ucmd zc h hdf mS mD mC mH dDS dCS dCD dHS dHD dHC
  · intro o2
    rw [send_response_heap_eq, send_response_heap_eq]

/-- A server context whose four buffers are the distinct live allocations
1, 2, 3, 4. -/
def zcFour : ZfsCmd := ⟨1, 2, 3, 4, 0, 0, 0, 0, false, 0, 0, 0⟩

/-- A heap on which addresses 1-4 are live. -/
def heap4 : Heap := ⟨5, [1, 2, 3, 4], [], [], false⟩

/-- Witness for send_response_frees_once, on a run whose very first write
fails: all four buffers are still freed exactly once, with no double free. -/
theorem send_response_frees_once_witness :
    (uzfs_send_response 1 1 ⟨0, 0, 0, 0⟩ zcFour ⟨0, 1, 1, 1⟩ heap4).heap.frees =
      heap4.frees ++ [zcFour.zc_nvlist_src, zcFour.zc_nvlist_dst,
        zcFour.zc_nvlist_conf, zcFour.zc_history] ∧
    (uzfs_send_response 1 1 ⟨0, 0, 0, 0⟩ zcFour ⟨0, 1, 1, 1⟩
        heap4).heap.doubleFree = false := by
  have h := send_response_frees_once 1 1 ⟨0, 0, 0, 0⟩ zcFour ⟨0, 1, 1, 1⟩ heap4
    (by decide) (by decide) (by decide) (by decide) (by decide) (by decide)
    (by decide) (by decide) (by decide) (by decide) (by decide)
  exact ⟨h.1, h.2.1⟩

/-! ### History buffer sizing in uzfs_ioctl_init (C4) -/

/-- C4 counterexample: a request whose envelope declares his_len = 1 while
the descriptor declares zc_history_len = 2 gets its history buffer allocated
with size 1 (the envelope value), not the larger of the two lengths (2): the
code takes `cmd->his_len ? cmd->his_len : zc->zc_history_len`, not a max. -/
theorem his_alloc_not_max_cex :
    (uzfs_ioctl_init ⟨0, 1, 0, 0⟩ { zcZero with zc_history_len := 2 }
        true true true true heap0).heap.allocLog = [(1, 1)] ∧
    ¬ (1 = max 1 2) := by
  decide

/-- C4 (amended): when every allocation succeeds, uzfs_ioctl_init sizes the
history buffer by the envelope's his_len if that is nonzero and by the
descriptor's zc_history_len otherwise (so with both nonzero the envelope
value wins, even when it is the smaller); when both are zero no history
buffer is allocated and the history reference stays null. -/
theorem his_alloc_envelope_precedence (cmd : UzfsIoctl) (zc : ZfsCmd)
    (h : Heap) :
    (uzfs_ioctl_init cmd zc true true true true h).ret = 0 ∧
    (his_size cmd zc ≠ 0 →
      (uzfs_ioctl_init cmd zc true true true true h).heap.allocLog.head? =
        some ((uzfs_ioctl_init cmd zc true true true true h).zc.zc_history,
          his_size cmd zc)) ∧
    (cmd.his_len = 0 → zc.zc_history_len = 0 →
      (uzfs_ioctl_init cmd zc true true true true h).zc.zc_history = 0 ∧
      (uzfs_ioctl_init cmd zc true true true true h).heap.allocLog.length =
        h.allocLog.length +
          ((if zc.zc_nvlist_src_size = 0 then 0 else 1) +
           (if zc.zc_nvlist_dst_size = 0 then 0 else 1) +
           (if zc.zc_nvlist_conf_size = 0 then 0 else 1))) := by
  by_cases hS : zc.zc_nvlist_src_size = 0 <;>
    by_cases hD : zc.zc_nvlist_dst_size = 0 <;>
    by_cases hC : zc.zc_nvlist_conf_size = 0 <;>
    by_cases hH : his_size cmd zc = 0 <;>
    simp_all [uzfs_ioctl_init, allocField, Heap.malloc, his_size]

/-- Witness for his_alloc_envelope_precedence at the concrete request of the
counterexample: the history allocation recorded is (address 1, size 1). -/
theorem his_alloc_envelope_precedence_witness :
    (uzfs_ioctl_init ⟨0, 1, 0, 0⟩ { zcZero with zc_history_len := 2 }
        true true true true heap0).heap.allocLog.head? =
      some ((uzfs_ioctl_init ⟨0, 1, 0, 0⟩ { zcZero with zc_history_len := 2 }
        true true true true heap0).zc.zc_history,
        his_size ⟨0, 1, 0, 0⟩ { zcZero with zc_history_len := 2 }) := by
  exact (his_alloc_envelope_precedence ⟨0, 1, 0, 0⟩
    { zcZero with zc_history_len := 2 } heap0).2.1 (by decide)

/-! ### All-or-nothing allocation in uzfs_ioctl_init (C5) -/

set_option maxHeartbeats 1600000 in
theorem ioctl_init_err_case (cmd : UzfsIoctl) (zc : ZfsCmd)
    (oS oD oC oH : Bool) (h : Heap)
    (hdf : h.doubleFree = false) (hn : 0 < h.next) :
    (uzfs_ioctl_init cmd zc oS oD oC oH h).ret = -1 →
      (uzfs_ioctl_init cmd zc oS oD oC oH h).heap.live = h.live ∧
      (uzfs_ioctl_init cmd zc oS oD oC oH h).heap.doubleFree = false := by
  obtain ⟨n, L, lg, fr, df⟩ := h
  have hdf' : df = false := hdf
  have hn2 : 0 < n := hn
  have hn' : n ≠ 0 := by omega
  subst hdf'
  by_cases hS : zc.zc_nvlist_src_size = 0 <;>
    by_cases hD : zc.zc_nvlist_dst_size = 0 <;>
    by_cases hC : zc.zc_nvlist_conf_size = 0 <;>
    by_cases hH : his_size cmd zc = 0 <;>
    cases oS <;> cases oD <;> cases oC <;> cases oH <;>
    simp_all [uzfs_ioctl_init, allocField, Heap.malloc, uzfs_ioctl_done,
      his_size, free_null, free_head, free_depth1, free_depth2,
      plus_one_ne_zero, nne1, nne2, nne21]

set_option maxHeartbeats 1600000 in
theorem ioctl_init_ok_case (cmd : UzfsIoctl) (zc : ZfsCmd)
    (oS oD oC oH : Bool) (h : Heap)
    (hdf : h.doubleFree = false) (hn : 0 < h.next) :
    (uzfs_ioctl_init cmd zc oS oD oC oH h).ret = 0 →
      (uzfs_ioctl_init cmd zc oS oD oC oH h).heap.doubleFree = false ∧
      (uzfs_ioctl_init cmd zc oS oD oC oH h).heap.live =
        ([(uzfs_ioctl_init cmd zc oS oD oC oH h).zc.zc_history,
          (uzfs_ioctl_init cmd zc oS oD oC oH h).zc.zc_nvlist_conf,
          (uzfs_ioctl_init cmd zc oS oD oC oH h).zc.zc_nvlist_dst,
          (uzfs_ioctl_init cmd zc oS oD oC oH h).zc.zc_nvlist_src].filter
            (fun a => a != 0)) ++ h.live ∧
      ((uzfs_ioctl_init cmd zc oS oD oC oH h).zc.zc_nvlist_src ≠ 0 ↔
        zc.zc_nvlist_src_size ≠ 0) ∧
      ((uzfs_ioctl_init cmd zc oS oD oC oH h).zc.zc_nvlist_dst ≠ 0 ↔
        zc.zc_nvlist_dst_size ≠ 0) ∧
      ((uzfs_ioctl_init cmd zc oS oD oC oH h).zc.zc_nvlist_conf ≠ 0 ↔
        zc.zc_nvlist_conf_size ≠ 0) ∧
      ((uzfs_ioctl_init cmd zc oS oD oC oH h).zc.zc_history ≠ 0 ↔
        his_size cmd zc ≠ 0) := by
  obtain ⟨n, L, lg, fr, df⟩ := h
  have hdf' : df = false := hdf
  have hn2 : 0 < n := hn
  have hn' : n ≠ 0 := by omega
  subst hdf'
  by_cases hS : zc.zc_nvlist_src_size = 0 <;>
    by_cases hD : zc.zc_nvlist_dst_size = 0 <;>
    by_cases hC : zc.zc_nvlist_conf_size = 0 <;>
    by_cases hH : his_size cmd zc = 0 <;>
    cases oS <;> cases oD <;> cases oC <;> cases oH <;>
    simp_all [uzfs_ioctl_init, allocField, Heap.malloc, uzfs_ioctl_done,
      his_size, free_null, free_head, free_depth1, free_depth2,
      plus_one_ne_zero, nne1, nne2, nne21]

/-- C5: on any malloc failure uzfs_ioctl_init restores the allocator to its
pre-call live set - every buffer allocated earlier is released, none twice
(the double-free flag stays clear) - and on success it hands back a context
in which each of the four buffer references is populated exactly when its
declared size is nonzero, every fresh allocation being reachable from the
returned descriptor. -/
theorem ioctl_init_all_or_nothing (cmd : UzfsIoctl) (zc : ZfsCmd)
    (oS oD oC oH : Bool) (h : Heap)
    (hdf : h.doubleFree = false) (hn : 0 < h.next) :
    ((uzfs_ioctl_init cmd zc oS oD oC oH h).ret = -1 →
      (uzfs_ioctl_init cmd zc oS oD oC oH h).heap.live = h.live ∧
      (uzfs_ioctl_init cmd zc oS oD oC oH h).heap.doubleFree = false) ∧
    ((uzfs_ioctl_init cmd zc oS oD oC oH h).ret = 0 →
      (uzfs_ioctl_init cmd zc oS oD oC oH h).heap.doubleFree = false ∧
      (uzfs_ioctl_init cmd zc oS oD oC oH h).heap.live =
        ([(uzfs_ioctl_init cmd zc oS oD oC oH h).zc.zc_history,
          (uzfs_ioctl_init cmd zc oS oD oC oH h).zc.zc_nvlist_conf,
          (uzfs_ioctl_init cmd zc oS oD oC oH h).zc.zc_nvlist_dst,
          (uzfs_ioctl_init cmd zc oS oD oC oH h).zc.zc_nvlist_src].filter
            (fun a => a != 0)) ++ h.live ∧
      ((uzfs_ioctl_init cmd zc oS oD oC oH h).zc.zc_nvlist_src ≠ 0 ↔
        zc.zc_nvlist_src_size ≠ 0) ∧
      ((uzfs_ioctl_init cmd zc oS oD oC oH h).zc.zc_nvlist_dst ≠ 0 ↔
        zc.zc_nvlist_dst_size ≠ 0) ∧
      ((uzfs_ioctl_init cmd zc oS oD oC oH h).zc.zc_nvlist_conf ≠ 0 ↔
        zc.zc_nvlist_conf_size ≠ 0) ∧
      ((uzfs_ioctl_init cmd zc oS oD oC oH h).zc.zc_history ≠ 0 ↔
        his_size cmd zc ≠ 0)) :=
  ⟨ioctl_init_err_case cmd zc oS oD oC oH h hdf hn,
   ioctl_init_ok_case cmd zc oS oD oC oH h hdf hn⟩

/-- Witness for ioctl_init_all_or_nothing: with input and output sizes both
nonzero and the second malloc failing, the input buffer allocated first is
released and the pre-call live set comes back unchanged. -/
theorem ioctl_init_all_or_nothing_witness :
    (uzfs_ioctl_init ⟨0, 0, 0, 0⟩
        { zcZero with zc_nvlist_src_size := 1, zc_nvlist_dst_size := 1 }
        true false true true heap0).heap.live = heap0.live ∧
    (uzfs_ioctl_init ⟨0, 0, 0, 0⟩
        { zcZero with zc_nvlist_src_size := 1, zc_nvlist_dst_size := 1 }
        true false true true heap0).heap.doubleFree = false := by
  exact (ioctl_init_all_or_nothing ⟨0, 0, 0, 0⟩
    { zcZero with zc_nvlist_src_size := 1, zc_nvlist_dst_size := 1 }
    true false true true heap0 (by decide) (by decide)).1 (by decide)
